import Mathlib

/-
Verification of the retry, rate-limit and cache orchestration layer of the
httpx HTTP client (retry.go and client.go), as a shallow embedding.

Durations are Go time.Duration values, i.e. int64 nanosecond counts,
modelled as Int with explicit two-complement wraparound where Go arithmetic
can overflow.  The random source, the transport, the rate limiter, the
retry wait and the cache are external collaborators; their observable
results are supplied by oracle functions (structure Env below), indexed by
invocation count, so that theorems quantify over every possible behaviour
of the collaborators.
-/

set_option linter.unusedVariables false

namespace Httpx

/-- Two-complement wraparound of Go int64 arithmetic. -/
def wrap64 (x : Int) : Int := (x + 2 ^ 63) % 2 ^ 64 - 2 ^ 63

/-- The expression int64(float64(d) * 0.25) from retry.go (jitterRange).  For
abs d below 2 to the 53, the conversion of d to float64 is exact, the
multiplication by 0.25 is an exact binary scaling, and the conversion back to
int64 truncates toward zero; on that range the expression therefore equals
division by 4 truncated toward zero, which is how it is modelled.  Every
theorem below either evaluates it on such small concrete inputs or does not
depend on its value at all. -/
def quarterTrunc (d : Int) : Int := Int.tdiv d 4

/-- Go strconv.Atoi: an optional single sign, then decimal digits; the error
result (empty input, a stray character, or overflow past int64) is modelled
as none. -/
def goAtoi (s : String) : Option Int :=
  let cs := s.toList
  let signed : Bool × List Char :=
    match cs with
    | '-' :: rest => (true, rest)
    | '+' :: rest => (false, rest)
    | _ => (false, cs)
  let neg := signed.1
  let digits := signed.2
  if digits.isEmpty then none
  else if digits.all (fun d => decide ('0' ≤ d) && decide (d ≤ '9')) then
    let n : Nat := digits.foldl (fun acc d => acc * 10 + (d.toNat - '0'.toNat)) 0
    let v : Int := if neg then -(n : Int) else (n : Int)
    if -(2 ^ 63) ≤ v ∧ v ≤ 2 ^ 63 - 1 then some v else none
  else none

/-- The slice of an http.Response that retry.go and client.go inspect: the
status code and the value resp.Header.Get("Retry-After") returns (the empty
string when the header is absent). -/
structure Response where
  StatusCode : Int
  retryAfterHeader : String
deriving DecidableEq, Repr

/-- RetryPolicy (retry.go).  The unexported retryableStatusCodeMap is a Go
map from status code to bool; since the only writer (DefaultRetryPolicy)
stores true for every key, the map is modelled as the list of its keys, with
none standing for a nil map (the zero value, on which every lookup yields
false).  The unexported retryTimer field is a pointer to the single timer
owned by the policy; its mutable deadline state is modelled separately (see
waitArmTimer below), since only its identity lives in the struct. -/
structure RetryPolicy where
  retryableStatusCodeMap : Option (List Int)
  RetryableStatusCodes : List Int
  MaxRetries : Int
  MinRetryDelay : Int
  MaxRetryDelay : Int
deriving DecidableEq, Repr

/-- The retryable status codes installed by DefaultRetryPolicy:
TooManyRequests, ServiceUnavailable, BadGateway, GatewayTimeout,
RequestTimeout, Conflict, PreconditionFailed, Locked. -/
def defaultRetryableStatusCodes : List Int := [429, 503, 502, 504, 408, 409, 412, 423]

/-- DefaultRetryPolicy (retry.go:48-73): both the exported slice and the
unexported map hold the default codes; MaxRetries 4, MinRetryDelay 1s,
MaxRetryDelay 30s (in nanoseconds). -/
def DefaultRetryPolicy : RetryPolicy :=
  { retryableStatusCodeMap := some defaultRetryableStatusCodes
    RetryableStatusCodes := defaultRetryableStatusCodes
    MaxRetries := 4
    MinRetryDelay := 1000000000
    MaxRetryDelay := 30000000000 }

/-- jitter (retry.go:125-134).  The call
xrand.IntChaChaCha(int(maxJitter-minJitter), nil) is modelled by the
parameter r: the external random source, specified to yield an integer in
[0, n) for argument n. -/
def RetryPolicy.jitter (delay r : Int) : Int :=
  let jitterRange := quarterTrunc delay
  let minJitter := wrap64 (delay - jitterRange)
  let maxJitter := wrap64 (delay + jitterRange)
  wrap64 (minJitter + r)

/-- The first half of RetryAfter (retry.go:81-87): delay starts as
MinRetryDelay and is replaced by the Retry-After header value times one
second when the header is present and strconv.Atoi accepts it. -/
def RetryPolicy.retryBaseDelay (p : RetryPolicy) (resp : Response) : Int :=
  if resp.retryAfterHeader ≠ "" then
    match goAtoi resp.retryAfterHeader with
    | some seconds => wrap64 (seconds * 1000000000)
    | none => p.MinRetryDelay
  else p.MinRetryDelay

/-- RetryAfter (retry.go:80-99): jitteredDelay := delay + p.jitter(delay),
then the switch clamps the result into [MinRetryDelay, MaxRetryDelay].  r is
the value produced by the random source inside jitter. -/
def RetryPolicy.RetryAfter (p : RetryPolicy) (resp : Response) (r : Int) : Int :=
  let delay := p.retryBaseDelay resp
  let jitteredDelay := wrap64 (delay + RetryPolicy.jitter delay r)
  if jitteredDelay < p.MinRetryDelay then p.MinRetryDelay
  else if jitteredDelay > p.MaxRetryDelay then p.MaxRetryDelay
  else jitteredDelay

/-- ShouldRetry (retry.go:103-105): a lookup in the unexported
retryableStatusCodeMap; a nil map yields false for every key. -/
def RetryPolicy.ShouldRetry (p : RetryPolicy) (resp : Response) : Bool :=
  (p.retryableStatusCodeMap.getD []).contains resp.StatusCode

/-- The first action of Wait (retry.go:114): p.retryTimer.Reset(delay)
overwrites the deadline of the one timer the policy owns with the delay
computed for the current call.  The argument timer is the previous state of
that shared deadline; the result is its new state.  A second call on the
same policy thus rearms the very timer an earlier, still-blocked call is
selecting on. -/
def RetryPolicy.waitArmTimer (p : RetryPolicy) (timer : Int) (resp : Response) (r : Int) : Int :=
  p.RetryAfter resp r

/-- A RetryPolicy composite literal built outside the package: only exported
fields can be set, so the unexported retryableStatusCodeMap keeps its zero
value, a nil map (and retryTimer stays nil). -/
def mkRetryPolicy (codes : List Int) (maxRetries minDelay maxDelay : Int) : RetryPolicy :=
  { retryableStatusCodeMap := none
    RetryableStatusCodes := codes
    MaxRetries := maxRetries
    MinRetryDelay := minDelay
    MaxRetryDelay := maxDelay }

theorem wrap64_eq_self (x : Int) (h1 : -(2 ^ 63) ≤ x) (h2 : x < 2 ^ 63) : wrap64 x = x := by
  unfold wrap64
  rw [Int.emod_eq_of_lt (by omega) (by omega)]
  omega

/-- A response carrying the header Retry-After: 10. -/
def respRetryAfter10 : Response := { StatusCode := 503, retryAfterHeader := "10" }

/-- A response carrying the header Retry-After: 7. -/
def respRetryAfter7 : Response := { StatusCode := 503, retryAfterHeader := "7" }

/-- A response carrying the header Retry-After: 3. -/
def respRetryAfter3 : Response := { StatusCode := 503, retryAfterHeader := "3" }

/-- C7: for the default policy, ShouldRetry is true exactly on the configured
retryable set 429, 503, 502, 504, 408, 409, 412, 423, and false on every
other status code (hence on 200, 299, 300 and 404); being a function of the
response alone in this embedding, it is pure and deterministic. -/
theorem default_shouldRetry_iff_member (resp : Response) :
    DefaultRetryPolicy.ShouldRetry resp = true ↔
      resp.StatusCode ∈ ([429, 503, 502, 504, 408, 409, 412, 423] : List Int) := by
  simp [RetryPolicy.ShouldRetry, DefaultRetryPolicy, defaultRetryableStatusCodes]

/-- C8: for any policy with MinRetryDelay at most MaxRetryDelay, any response
(any Retry-After value, huge, negative or absent) and any value the random
source returns, the final switch clamps RetryAfter into the closed interval
between MinRetryDelay and MaxRetryDelay. -/
theorem retryAfter_within_bounds (p : RetryPolicy) (resp : Response) (r : Int)
    (h : p.MinRetryDelay ≤ p.MaxRetryDelay) :
    p.MinRetryDelay ≤ p.RetryAfter resp r ∧ p.RetryAfter resp r ≤ p.MaxRetryDelay := by
  unfold RetryPolicy.RetryAfter
  dsimp only
  split_ifs <;> omega

/-- Witness for retryAfter_within_bounds at the default policy, a response
with Retry-After: 10 and random draw 0. -/
theorem retryAfter_within_bounds_witness :
    DefaultRetryPolicy.MinRetryDelay ≤ DefaultRetryPolicy.MaxRetryDelay ∧
    (DefaultRetryPolicy.MinRetryDelay ≤ DefaultRetryPolicy.RetryAfter respRetryAfter10 0 ∧
      DefaultRetryPolicy.RetryAfter respRetryAfter10 0 ≤ DefaultRetryPolicy.MaxRetryDelay) :=
  ⟨by decide, retryAfter_within_bounds DefaultRetryPolicy respRetryAfter10 0 (by decide)⟩

/-- C10: ShouldRetry reads only the unexported retryableStatusCodeMap, which
only DefaultRetryPolicy populates.  A RetryPolicy composite literal built
outside the package carries a nil map, so ShouldRetry is false for every
response whatever the exported RetryableStatusCodes field holds; and
rewriting RetryableStatusCodes on any policy leaves ShouldRetry unchanged. -/
theorem shouldRetry_ignores_exported_codes :
    (∀ (codes : List Int) (maxRetries minDelay maxDelay : Int) (resp : Response),
        (mkRetryPolicy codes maxRetries minDelay maxDelay).ShouldRetry resp = false) ∧
    (∀ (p : RetryPolicy) (l : List Int) (resp : Response),
        ({ p with RetryableStatusCodes := l } : RetryPolicy).ShouldRetry resp =
          p.ShouldRetry resp) := by
  constructor
  · intro codes maxRetries minDelay maxDelay resp
    rfl
  · intro p l resp
    rfl

/-- C1: the claimed symmetric jitter around the base delay does not hold.
With the default policy (MinRetryDelay 1s, MaxRetryDelay 30s) and a response
whose Retry-After header is 10, the jitter helper already returns a full
jittered delay in [7.5s, 12.5s), and RetryAfter adds it to the base delay
again, so for every value the random source can return (an integer in
[0, 5e9), the argument passed being maxJitter - minJitter) the result is
17.5s + r, inside [17.5s, 22.5s) and strictly above the claimed upper bound
of 12.5s. -/
theorem retryAfter_doubles_base_delay (r : Int) (h0 : 0 ≤ r) (h5 : r < 5000000000) :
    DefaultRetryPolicy.RetryAfter respRetryAfter10 r = 17500000000 + r ∧
    12500000000 < DefaultRetryPolicy.RetryAfter respRetryAfter10 r := by
  have hbase : DefaultRetryPolicy.retryBaseDelay respRetryAfter10 = 10000000000 := by decide
  have hj : RetryPolicy.jitter 10000000000 r = 7500000000 + r := by
    unfold RetryPolicy.jitter
    dsimp only
    have hq : quarterTrunc 10000000000 = 2500000000 := by decide
    rw [hq]
    rw [show ((10000000000 : Int) - 2500000000) = 7500000000 by norm_num]
    rw [wrap64_eq_self 7500000000 (by norm_num) (by norm_num)]
    rw [wrap64_eq_self (7500000000 + r) (by omega) (by omega)]
  have hval : DefaultRetryPolicy.RetryAfter respRetryAfter10 r = 17500000000 + r := by
    unfold RetryPolicy.RetryAfter
    dsimp only
    rw [hbase, hj]
    rw [show ((10000000000 : Int) + (7500000000 + r)) = 17500000000 + r by ring]
    rw [wrap64_eq_self (17500000000 + r) (by omega) (by omega)]
    have hmin : DefaultRetryPolicy.MinRetryDelay = 1000000000 := rfl
    have hmax : DefaultRetryPolicy.MaxRetryDelay = 30000000000 := rfl
    rw [hmin, hmax]
    split_ifs <;> omega
  exact ⟨hval, by omega⟩

/-- Witness for retryAfter_doubles_base_delay at random draw 0. -/
theorem retryAfter_doubles_base_delay_witness :
    (0 : Int) ≤ 0 ∧ (0 : Int) < 5000000000 ∧
    (DefaultRetryPolicy.RetryAfter respRetryAfter10 0 = 17500000000 + 0 ∧
      12500000000 < DefaultRetryPolicy.RetryAfter respRetryAfter10 0) :=
  ⟨le_refl 0, by norm_num, retryAfter_doubles_base_delay 0 (le_refl 0) (by norm_num)⟩

/-- C9: the wait primitive is not per retry sequence.  Wait arms the one
timer stored in the policy (retryTimer, allocated once in
DefaultRetryPolicy); when a second concurrent call reaches Wait and resets
that same timer, the shared deadline no longer equals the deadline the first
call armed, so the first call is now blocked on a deadline the second call
chose (here, with draws 0, responses with Retry-After 7 and 3 arm 12.25s and
5.25s respectively). -/
theorem wait_timer_shared_across_calls :
    RetryPolicy.waitArmTimer DefaultRetryPolicy
        (RetryPolicy.waitArmTimer DefaultRetryPolicy 0 respRetryAfter7 0) respRetryAfter3 0 ≠
      RetryPolicy.waitArmTimer DefaultRetryPolicy 0 respRetryAfter7 0 := by
  decide

/-- Go error values; fmt.Errorf with a single percent-w verb preserves the
wrapped cause, so wrapping is modelled as identity and an error is just its
message. -/
abbrev GoError := String

/-- Oracle for the external collaborators of Client.Do, each indexed by its
own invocation count within one call: transport k is what c.client.Do
returns on the k-th transport call, reqCtxDone k and reqCtxErr k the state
of req.Context() examined when that call fails, limiter k the k-th result of
RateLimiter.Wait, retryWait k the k-th result of RetryPolicy.Wait (none
meaning the timer fired, some e a cancellation), cacheGet the pair Cache.Get
returns, and cacheSet the result of Cache.Set on the stored response (the
TTL policy is folded into it, since only the error is observed). -/
structure Env where
  transport : Nat → Except GoError Response
  reqCtxDone : Nat → Bool
  reqCtxErr : Nat → GoError
  limiter : Nat → Option GoError
  retryWait : Nat → Option GoError
  cacheGet : Option Response × Option GoError
  cacheSet : Option Response → Option GoError

/-- The configuration of a Client that Do consults: whether RetryPolicy,
RateLimiter and Cache are nil, and the policy itself.  The concrete
limiter, cache and transport behave through Env. -/
structure Client where
  retryPolicy : Option RetryPolicy
  hasRateLimiter : Bool
  hasCache : Bool

/-- maxRetries (client.go:219-225): the MaxRetries of the policy when one is
set, otherwise 1. -/
def Client.maxRetries (c : Client) : Int :=
  match c.retryPolicy with
  | some p => p.MaxRetries
  | none => 1

/-- applyRateLimiter (client.go:233-243): RateLimiter.Wait runs only when
count is positive and a limiter is configured; the pair returned is the Wait
outcome (none when no wait ran or the wait succeeded) and the updated count
of limiter invocations. -/
def applyRateLimiter (c : Client) (env : Env) (i lc : Nat) : Option GoError × Nat :=
  if 0 < i ∧ c.hasRateLimiter then (env.limiter lc, lc + 1) else (none, lc)

/-- How the attempt loop of Do ends: early carries the error of a return
statement inside the loop (limiter failure, transport failure, canceled
backoff wait); done carries the value of the resp variable when control
reaches the code after the loop (break on a non-retryable response, or the
loop condition failing). -/
inductive LoopRes where
  | early (err : GoError)
  | done (resp : Option Response)
deriving DecidableEq

/-- Result of the attempt loop: how it ended, the number of transport calls
made (tc), of RateLimiter.Wait invocations (lc), and of RetryPolicy.Wait
invocations (wc). -/
structure LoopState where
  res : LoopRes
  tc : Nat
  lc : Nat
  wc : Nat
deriving DecidableEq

/-- The attempt loop of Do (client.go:110-141).  fuel is the number of loop
iterations left (maxRetries minus i), i the loop variable (equal to the
transport calls made so far), resp the current value of the resp variable,
lc and wc the invocation counts feeding Env.  On a transport error the
select on req.Context().Done() picks the context error; the
DeadlineExceeded test and the default branch both return the wrapped
transport error, so they collapse to one branch here.  On a retryable
response, Wait either fails (return) or succeeds (continue with resp
holding the retryable response). -/
def doLoop (c : Client) (env : Env) : Nat → Nat → Option Response → Nat → Nat → LoopState
  | 0, i, resp, lc, wc => ⟨.done resp, i, lc, wc⟩
  | f + 1, i, resp, lc, wc =>
    match applyRateLimiter c env i lc with
    | (some e, lc2) => ⟨.early e, i, lc2, wc⟩
    | (none, lc2) =>
      match env.transport i with
      | .error e =>
        ⟨.early (if env.reqCtxDone i then env.reqCtxErr i else e), i + 1, lc2, wc⟩
      | .ok r =>
        match c.retryPolicy with
        | some p =>
          if p.ShouldRetry r then
            match env.retryWait wc with
            | some e => ⟨.early e, i + 1, lc2, wc + 1⟩
            | none => doLoop c env f (i + 1) (some r) lc2 (wc + 1)
          else ⟨.done (some r), i + 1, lc2, wc⟩
        | none => ⟨.done (some r), i + 1, lc2, wc⟩

/-- The cache lookup of Do (client.go:98-106): when a cache is configured,
resp and err come from Cache.Get and a hit needs resp non-nil and err nil;
on a miss the resp variable keeps whatever Get returned (the Get error is
examined only inside the hit test). -/
def cacheLookup (c : Client) (env : Env) : Option Response × Bool :=
  if c.hasCache then
    ((env.cacheGet).1, (env.cacheGet).1.isSome && (env.cacheGet).2.isNone)
  else (none, false)

/-- What Do returns, plus the collaborator invocation counts of the call. -/
structure DoOutcome where
  resp : Option Response
  err : Option GoError
  transportCalls : Nat
  limiterCalls : Nat
  waitCalls : Nat
deriving DecidableEq

/-- Do (client.go:86-154): cache lookup with hit short-circuit, the attempt
loop bounded by maxRetries, then, when a cache is configured, Cache.Set on
the final resp value with an error return on failure, and finally
return resp, nil. -/
def Client.Do (c : Client) (env : Env) : DoOutcome :=
  let look := cacheLookup c env
  if look.2 then ⟨look.1, none, 0, 0, 0⟩
  else
    let st := doLoop c env (c.maxRetries).toNat 0 look.1 0 0
    match st.res with
    | .early e => ⟨none, some e, st.tc, st.lc, st.wc⟩
    | .done resp =>
      if c.hasCache then
        match env.cacheSet resp with
        | some e => ⟨none, some e, st.tc, st.lc, st.wc⟩
        | none => ⟨resp, none, st.tc, st.lc, st.wc⟩
      else ⟨resp, none, st.tc, st.lc, st.wc⟩

/-- A 200 response with no Retry-After header. -/
def respOk : Response := { StatusCode := 200, retryAfterHeader := "" }

/-- A 503 response with no Retry-After header. -/
def respUnavailable : Response := { StatusCode := 503, retryAfterHeader := "" }

/-- The default policy with MaxRetries replaced, for claims that range over
the retry budget. -/
def testPolicy (M : Nat) : RetryPolicy := { DefaultRetryPolicy with MaxRetries := (M : Int) }

/-- A client with retry policy testPolicy M, a rate limiter, and no cache. -/
def convClient (M : Nat) : Client :=
  { retryPolicy := some (testPolicy M), hasRateLimiter := true, hasCache := false }

/-- Collaborators for the convergence claim: the transport yields 503 until
call N (1-based), which yields 200; the limiter and the backoff wait always
succeed; nothing is cached. -/
def convEnv (N : Nat) : Env :=
  { transport := fun k => .ok (if k + 1 = N then respOk else respUnavailable)
    reqCtxDone := fun _ => false
    reqCtxErr := fun _ => "context canceled"
    limiter := fun _ => none
    retryWait := fun _ => none
    cacheGet := (none, none)
    cacheSet := fun _ => none }

theorem convLoop_eq (M N : Nat) (f i lc wc : Nat) (resp : Option Response)
    (h1 : 1 ≤ i) (h2 : i < N) (h3 : N ≤ i + f) :
    doLoop (convClient M) (convEnv N) f i resp lc wc =
      ⟨.done (some respOk), N, lc + (N - i), wc + (N - 1 - i)⟩ := by
  induction f generalizing i resp lc wc with
  | zero => omega
  | succ f ih =>
    rw [doLoop]
    have hlim : applyRateLimiter (convClient M) (convEnv N) i lc = (none, lc + 1) := by
      unfold applyRateLimiter
      rw [if_pos ⟨h1, rfl⟩]
      rfl
    rw [hlim]
    have htr : (convEnv N).transport i =
        Except.ok (if i + 1 = N then respOk else respUnavailable) := rfl
    have hrp : (convClient M).retryPolicy = some (testPolicy M) := rfl
    rw [htr, hrp]
    dsimp only
    by_cases hN : i + 1 = N
    · rw [if_pos hN]
      have hsr : (testPolicy M).ShouldRetry respOk = false := rfl
      rw [hsr]
      simp only [Bool.false_eq_true, if_false]
      rw [show N - i = 1 from by omega, show N - 1 - i = 0 from by omega, ← hN]
      simp
    · rw [if_neg hN]
      have hsr : (testPolicy M).ShouldRetry respUnavailable = true := rfl
      rw [hsr]
      simp only [if_true]
      rw [show (convEnv N).retryWait wc = none from rfl]
      dsimp only
      rw [ih (i + 1) (lc + 1) (wc + 1) (some respUnavailable) (by omega) (by omega) (by omega)]
      rw [show lc + 1 + (N - (i + 1)) = lc + (N - i) from by omega,
        show wc + 1 + (N - 1 - (i + 1)) = wc + (N - 1 - i) from by omega]

/-- C2: retry convergence.  With a policy allowing M retries, a rate limiter
and no cache, against a transport yielding 503 on the first N minus 1 calls
and 200 on call N (N between 1 and M), with no transport errors and no
cancellation, Do returns the 200 response with no error after exactly N
transport calls, and RateLimiter.Wait runs exactly N minus 1 times (and the
backoff wait as well); in particular the limiter never runs before the
first attempt. -/
theorem do_retry_convergence (M N : Nat) (h1 : 1 ≤ N) (h2 : N ≤ M) :
    Client.Do (convClient M) (convEnv N) = ⟨some respOk, none, N, N - 1, N - 1⟩ := by
  obtain ⟨f, rfl⟩ : ∃ f, M = f + 1 := ⟨M - 1, by omega⟩
  unfold Client.Do
  rw [show cacheLookup (convClient (f + 1)) (convEnv N) = (none, false) from rfl]
  dsimp only
  rw [show ((convClient (f + 1)).maxRetries).toNat = f + 1 from by
    simp [Client.maxRetries, convClient, testPolicy]]
  rw [doLoop]
  rw [show applyRateLimiter (convClient (f + 1)) (convEnv N) 0 0 = (none, 0) from rfl]
  by_cases hN1 : N = 1
  · subst hN1
    rw [show (convEnv 1).transport 0 = Except.ok respOk from rfl,
      show (convClient (f + 1)).retryPolicy = some (testPolicy (f + 1)) from rfl]
    dsimp only
    rw [show (testPolicy (f + 1)).ShouldRetry respOk = false from rfl]
    simp only [Bool.false_eq_true, if_false]
    rfl
  · rw [show (convEnv N).transport 0 =
        Except.ok (if 0 + 1 = N then respOk else respUnavailable) from rfl]
    rw [if_neg (by omega : ¬0 + 1 = N)]
    rw [show (convClient (f + 1)).retryPolicy = some (testPolicy (f + 1)) from rfl]
    dsimp only
    rw [show (testPolicy (f + 1)).ShouldRetry respUnavailable = true from rfl]
    simp only [if_true]
    rw [show (convEnv N).retryWait 0 = none from rfl]
    dsimp only
    rw [convLoop_eq (f + 1) N f 1 0 1 (some respUnavailable) (by omega) (by omega) (by omega)]
    dsimp only
    rw [show (convClient (f + 1)).hasCache = false from rfl]
    simp only [Bool.false_eq_true, if_false]
    rw [show 0 + (N - 1) = N - 1 from by omega, show 1 + (N - 1 - 1) = N - 1 from by omega]

/-- Witness for do_retry_convergence with a budget of 3 and success on the
second call. -/
theorem do_retry_convergence_witness :
    (1 : Nat) ≤ 2 ∧ (2 : Nat) ≤ 3 ∧
    Client.Do (convClient 3) (convEnv 2) = ⟨some respOk, none, 2, 1, 1⟩ :=
  ⟨by norm_num, by norm_num, do_retry_convergence 3 2 (by norm_num) (by norm_num)⟩

/-- Collaborators for the exhaustion claim: every transport call yields 503,
the limiter and the backoff wait always succeed, nothing is cached. -/
def exhEnv : Env :=
  { transport := fun _ => .ok respUnavailable
    reqCtxDone := fun _ => false
    reqCtxErr := fun _ => "context canceled"
    limiter := fun _ => none
    retryWait := fun _ => none
    cacheGet := (none, none)
    cacheSet := fun _ => none }

theorem exhLoop_eq (M : Nat) (f i lc wc : Nat) (h1 : 1 ≤ i) :
    doLoop (convClient M) exhEnv f i (some respUnavailable) lc wc =
      ⟨.done (some respUnavailable), i + f, lc + f, wc + f⟩ := by
  induction f generalizing i lc wc with
  | zero => rfl
  | succ f ih =>
    rw [doLoop]
    rw [show applyRateLimiter (convClient M) exhEnv i lc = (none, lc + 1) from by
      unfold applyRateLimiter
      rw [if_pos ⟨h1, rfl⟩]
      rfl]
    rw [show exhEnv.transport i = Except.ok respUnavailable from rfl,
      show (convClient M).retryPolicy = some (testPolicy M) from rfl]
    dsimp only
    rw [show (testPolicy M).ShouldRetry respUnavailable = true from rfl]
    simp only [if_true]
    rw [show exhEnv.retryWait wc = none from rfl]
    dsimp only
    rw [ih (i + 1) (lc + 1) (wc + 1) (by omega)]
    rw [show i + 1 + f = i + (f + 1) from by omega,
      show lc + 1 + f = lc + (f + 1) from by omega,
      show wc + 1 + f = wc + (f + 1) from by omega]

/-- C6: exhaustion.  With a budget of M retries (M at least 1), no cache and
a transport that yields 503 on every call with no transport error and no
cancellation, the loop runs to exhaustion and Do returns the last 503
response with no error after exactly M transport calls (the limiter ran
M minus 1 times, the backoff wait M times). -/
theorem do_exhaustion (M : Nat) (h : 1 ≤ M) :
    Client.Do (convClient M) exhEnv = ⟨some respUnavailable, none, M, M - 1, M⟩ := by
  obtain ⟨f, rfl⟩ : ∃ f, M = f + 1 := ⟨M - 1, by omega⟩
  unfold Client.Do
  rw [show cacheLookup (convClient (f + 1)) exhEnv = (none, false) from rfl]
  dsimp only
  rw [show ((convClient (f + 1)).maxRetries).toNat = f + 1 from by
    simp [Client.maxRetries, convClient, testPolicy]]
  rw [doLoop]
  rw [show applyRateLimiter (convClient (f + 1)) exhEnv 0 0 = (none, 0) from rfl]
  rw [show exhEnv.transport 0 = Except.ok respUnavailable from rfl,
    show (convClient (f + 1)).retryPolicy = some (testPolicy (f + 1)) from rfl]
  dsimp only
  rw [show (testPolicy (f + 1)).ShouldRetry respUnavailable = true from rfl]
  simp only [if_true]
  rw [show exhEnv.retryWait 0 = none from rfl]
  dsimp only
  rw [exhLoop_eq (f + 1) f 1 0 1 (by omega)]
  dsimp only
  rw [show (convClient (f + 1)).hasCache = false from rfl]
  simp only [Bool.false_eq_true, if_false]
  rw [show 1 + f = f + 1 from by omega, show 0 + f = f from by omega]
  rfl

/-- Witness for do_exhaustion at the claimed MaxRetries of 4. -/
theorem do_exhaustion_witness :
    (1 : Nat) ≤ 4 ∧ Client.Do (convClient 4) exhEnv = ⟨some respUnavailable, none, 4, 3, 4⟩ :=
  ⟨by norm_num, do_exhaustion 4 (by norm_num)⟩

/-- A transport call outcome after which the loop cannot continue: a hard
transport error, or a response the policy does not classify as retryable. -/
def TransportStop (env : Env) (p : RetryPolicy) (k : Nat) : Prop :=
  match env.transport k with
  | .error _ => True
  | .ok r => p.ShouldRetry r = false

theorem doLoop_tc_le (c : Client) (env : Env) (f : Nat) :
    ∀ (i : Nat) (resp : Option Response) (lc wc : Nat),
      (doLoop c env f i resp lc wc).tc ≤ i + f := by
  induction f with
  | zero =>
    intro i resp lc wc
    dsimp [doLoop]
    omega
  | succ f ih =>
    intro i resp lc wc
    rw [doLoop]
    cases hl : applyRateLimiter c env i lc with
    | mk oe lc2 =>
    cases oe with
    | some e => dsimp only; omega
    | none =>
      cases ht : env.transport i with
      | error e => dsimp only; omega
      | ok r =>
        cases hp : c.retryPolicy with
        | none => dsimp only; omega
        | some p =>
          dsimp only
          by_cases hsr : p.ShouldRetry r = true
          · rw [if_pos hsr]
            cases hw : env.retryWait wc with
            | some e => dsimp only; omega
            | none =>
              dsimp only
              have := ih (i + 1) (some r) lc2 (wc + 1)
              omega
          · rw [if_neg hsr]
            dsimp only
            omega

theorem doLoop_tc_stop (c : Client) (env : Env) (p : RetryPolicy)
    (hp : c.retryPolicy = some p) (k : Nat) (hstop : TransportStop env p k) (f : Nat) :
    ∀ (i : Nat) (resp : Option Response) (lc wc : Nat), i ≤ k →
      (doLoop c env f i resp lc wc).tc ≤ k + 1 := by
  induction f with
  | zero =>
    intro i resp lc wc hik
    dsimp [doLoop]
    omega
  | succ f ih =>
    intro i resp lc wc hik
    rw [doLoop]
    cases hl : applyRateLimiter c env i lc with
    | mk oe lc2 =>
    cases oe with
    | some e => dsimp only; omega
    | none =>
      cases ht : env.transport i with
      | error e => dsimp only; omega
      | ok r =>
        rw [hp]
        dsimp only
        by_cases hsr : p.ShouldRetry r = true
        · rw [if_pos hsr]
          cases hw : env.retryWait wc with
          | some e => dsimp only; omega
          | none =>
            dsimp only
            rcases Nat.lt_or_ge i k with hlt | hge
            · exact ih (i + 1) (some r) lc2 (wc + 1) hlt
            · exfalso
              have hik2 : i = k := by omega
              subst hik2
              unfold TransportStop at hstop
              rw [ht] at hstop
              dsimp only at hstop
              simp [hstop] at hsr
        · rw [if_neg hsr]
          dsimp only
          omega

theorem doLoop_tc_wait_stop (c : Client) (env : Env) (w : Nat) (e : GoError)
    (hw : env.retryWait w = some e) (f : Nat) :
    ∀ (i : Nat) (resp : Option Response) (lc wc : Nat), wc ≤ w →
      (doLoop c env f i resp lc wc).tc ≤ i + (w - wc) + 1 := by
  induction f with
  | zero =>
    intro i resp lc wc hwc
    dsimp [doLoop]
    omega
  | succ f ih =>
    intro i resp lc wc hwc
    rw [doLoop]
    cases hl : applyRateLimiter c env i lc with
    | mk oe lc2 =>
    cases oe with
    | some e2 => dsimp only; omega
    | none =>
      cases ht : env.transport i with
      | error e2 => dsimp only; omega
      | ok r =>
        cases hp : c.retryPolicy with
        | none => dsimp only; omega
        | some p =>
          dsimp only
          by_cases hsr : p.ShouldRetry r = true
          · rw [if_pos hsr]
            cases hwt : env.retryWait wc with
            | some e2 => dsimp only; omega
            | none =>
              dsimp only
              have hne : wc ≠ w := by
                intro hEq
                subst hEq
                rw [hw] at hwt
                exact Option.noConfusion hwt
              have := ih (i + 1) (some r) lc2 (wc + 1) (by omega)
              omega
          · rw [if_neg hsr]
            dsimp only
            omega

theorem do_transportCalls_eq (c : Client) (env : Env) :
    (c.Do env).transportCalls =
      if (cacheLookup c env).2 then 0
      else (doLoop c env (c.maxRetries).toNat 0 (cacheLookup c env).1 0 0).tc := by
  unfold Client.Do
  dsimp only
  by_cases hl : (cacheLookup c env).2 = true
  · rw [if_pos hl, if_pos hl]
  · rw [if_neg hl, if_neg hl]
    cases hres : (doLoop c env (c.maxRetries).toNat 0 (cacheLookup c env).1 0 0).res with
    | early e => rfl
    | done r =>
      dsimp only
      by_cases hc : c.hasCache = true
      · rw [if_pos hc]
        cases hset : env.cacheSet r with
        | some e => rfl
        | none => rfl
      · rw [if_neg hc]

/-- C3: with a retry policy configured, one Do call makes at most MaxRetries
transport calls (MaxRetries.toNat, so none when MaxRetries is not positive);
and the loop stops immediately, with no transport call beyond k plus 1, as
soon as transport call k (0-based) is a hard error or a non-retryable
response, or the backoff wait w (0-based) is canceled (no transport call
beyond w plus 1). -/
theorem do_attempt_bound (c : Client) (env : Env) (p : RetryPolicy)
    (hp : c.retryPolicy = some p) :
    (c.Do env).transportCalls ≤ p.MaxRetries.toNat ∧
    (∀ k, TransportStop env p k → (c.Do env).transportCalls ≤ k + 1) ∧
    (∀ (w : Nat) (e : GoError), env.retryWait w = some e →
      (c.Do env).transportCalls ≤ w + 1) := by
  have hmr : (c.maxRetries).toNat = p.MaxRetries.toNat := by
    unfold Client.maxRetries
    rw [hp]
  rw [do_transportCalls_eq]
  by_cases hl : (cacheLookup c env).2 = true
  · rw [if_pos hl]
    exact ⟨Nat.zero_le _, fun k _ => Nat.zero_le _, fun w e _ => Nat.zero_le _⟩
  · rw [if_neg hl]
    refine ⟨?_, ?_, ?_⟩
    · rw [← hmr]
      have := doLoop_tc_le c env (c.maxRetries).toNat 0 (cacheLookup c env).1 0 0
      omega
    · intro k hk
      exact doLoop_tc_stop c env p hp k hk _ 0 _ 0 0 (Nat.zero_le _)
    · intro w e hw
      have := doLoop_tc_wait_stop c env w e hw (c.maxRetries).toNat 0
        (cacheLookup c env).1 0 0 (Nat.zero_le _)
      omega

/-- Witness for do_attempt_bound: the convergence client with budget 3
against the environment succeeding on call 2 makes at most 3 transport
calls. -/
theorem do_attempt_bound_witness :
    (Client.Do (convClient 3) (convEnv 2)).transportCalls ≤ ((testPolicy 3).MaxRetries).toNat :=
  (do_attempt_bound (convClient 3) (convEnv 2) (testPolicy 3) rfl).1

/-- A client with the default retry policy, no rate limiter, and a cache. -/
def cacheClient : Client :=
  { retryPolicy := some DefaultRetryPolicy, hasRateLimiter := false, hasCache := true }

/-- Collaborators where Cache.Get fails, the transport immediately yields a
non-retryable 200, and Cache.Set succeeds. -/
def cacheGetFailEnv : Env :=
  { transport := fun _ => .ok respOk
    reqCtxDone := fun _ => false
    reqCtxErr := fun _ => "context canceled"
    limiter := fun _ => none
    retryWait := fun _ => none
    cacheGet := (none, some "cache: connection refused")
    cacheSet := fun _ => none }

/-- Same collaborators except that Cache.Set fails as well. -/
def cacheSetFailEnv : Env :=
  { transport := fun _ => .ok respOk
    reqCtxDone := fun _ => false
    reqCtxErr := fun _ => "context canceled"
    limiter := fun _ => none
    retryWait := fun _ => none
    cacheGet := (none, some "cache: connection refused")
    cacheSet := fun _ => some "cache: write failed" }

/-- C4 counterexample: a failure of Cache.Get is not surfaced.  The lookup
error is examined only inside the hit test (client.go:102), so the call
proceeds as if the lookup missed and Do returns the transport response with
a nil error, silently dropping the cache read failure. -/
theorem do_swallows_cacheGet_error :
    (cacheGetFailEnv.cacheGet).2 = some "cache: connection refused" ∧
    Client.Do cacheClient cacheGetFailEnv = ⟨some respOk, none, 1, 0, 0⟩ :=
  ⟨rfl, rfl⟩

/-- C4 amended: only the cache write failure is surfaced.  When the lookup
is not a hit and the loop hands a final response to the store step, a
Cache.Set error comes back as the error of Do with no response, while with a
successful Set the call returns the response with a nil error even if
Cache.Get had failed (the hypotheses allow any lookup error). -/
theorem do_cache_error_surfacing (c : Client) (env : Env) (r : Option Response)
    (hc : c.hasCache = true)
    (hmiss : (cacheLookup c env).2 = false)
    (hdone : (doLoop c env (c.maxRetries).toNat 0 (cacheLookup c env).1 0 0).res = .done r) :
    (∀ e, env.cacheSet r = some e → (c.Do env).err = some e ∧ (c.Do env).resp = none) ∧
    (env.cacheSet r = none → (c.Do env).err = none ∧ (c.Do env).resp = r) := by
  unfold Client.Do
  dsimp only
  rw [hmiss]
  simp only [Bool.false_eq_true, if_false]
  rw [hdone]
  dsimp only
  rw [hc, if_pos rfl]
  constructor
  · intro e hset
    rw [hset]
    exact ⟨rfl, rfl⟩
  · intro hset
    rw [hset]
    exact ⟨rfl, rfl⟩

/-- Witness for do_cache_error_surfacing: with a failing Cache.Set the write
error becomes the result of Do. -/
theorem do_cache_error_surfacing_witness :
    (Client.Do cacheClient cacheSetFailEnv).err = some "cache: write failed" ∧
    (Client.Do cacheClient cacheSetFailEnv).resp = none :=
  (do_cache_error_surfacing cacheClient cacheSetFailEnv (some respOk) rfl rfl rfl).1
    "cache: write failed" rfl

/-- A client whose retry policy has MaxRetries 0, with a limiter and no
cache. -/
def zeroRetryClient : Client :=
  { retryPolicy := some { DefaultRetryPolicy with MaxRetries := 0 }
    hasRateLimiter := true
    hasCache := false }

/-- Benign collaborators: the transport always yields 200 and every wait
succeeds. -/
def okEnv : Env :=
  { transport := fun _ => .ok respOk
    reqCtxDone := fun _ => false
    reqCtxErr := fun _ => "context canceled"
    limiter := fun _ => none
    retryWait := fun _ => none
    cacheGet := (none, none)
    cacheSet := fun _ => none }

/-- C5 counterexample: with MaxRetries 0 the attempt loop never runs, the
resp variable stays nil, and Do returns a nil response together with a nil
error, violating the exactly-one-of contract. -/
theorem do_nil_nil_on_zero_retries :
    (Client.Do zeroRetryClient okEnv).resp = none ∧
    (Client.Do zeroRetryClient okEnv).err = none :=
  ⟨rfl, rfl⟩

theorem cacheLookup_hit_isSome (c : Client) (env : Env)
    (h : (cacheLookup c env).2 = true) : (cacheLookup c env).1.isSome = true := by
  unfold cacheLookup at h ⊢
  by_cases hc : c.hasCache = true
  · rw [if_pos hc] at h ⊢
    exact ((Bool.and_eq_true _ _).mp h).1
  · rw [if_neg hc] at h
    exact absurd h (by simp)

theorem doLoop_done_isSome (c : Client) (env : Env) (f : Nat) :
    ∀ (i : Nat) (resp : Option Response) (lc wc : Nat) (r : Option Response),
      (resp.isSome = true ∨ 1 ≤ f) →
      (doLoop c env f i resp lc wc).res = .done r → r.isSome = true := by
  induction f with
  | zero =>
    intro i resp lc wc r hor hdone
    dsimp [doLoop] at hdone
    obtain rfl : resp = r := by injection hdone
    rcases hor with hs | hf
    · exact hs
    · omega
  | succ f ih =>
    intro i resp lc wc r hor hdone
    rw [doLoop] at hdone
    cases hl : applyRateLimiter c env i lc with
    | mk oe lc2 =>
    rw [hl] at hdone
    cases oe with
    | some e => exact absurd hdone (by dsimp only; intro h; exact LoopRes.noConfusion h)
    | none =>
      cases ht : env.transport i with
      | error e =>
        rw [ht] at hdone
        exact absurd hdone (by dsimp only; intro h; exact LoopRes.noConfusion h)
      | ok rr =>
        rw [ht] at hdone
        cases hp : c.retryPolicy with
        | none =>
          rw [hp] at hdone
          dsimp only at hdone
          obtain rfl : some rr = r := by injection hdone
          rfl
        | some p =>
          rw [hp] at hdone
          dsimp only at hdone
          by_cases hsr : p.ShouldRetry rr = true
          · rw [if_pos hsr] at hdone
            cases hw : env.retryWait wc with
            | some e =>
              rw [hw] at hdone
              exact absurd hdone (by dsimp only; intro h; exact LoopRes.noConfusion h)
            | none =>
              rw [hw] at hdone
              dsimp only at hdone
              exact ih (i + 1) (some rr) lc2 (wc + 1) r (Or.inl rfl) hdone
          · rw [if_neg hsr] at hdone
            dsimp only at hdone
            obtain rfl : some rr = r := by injection hdone
            rfl

/-- C5 amended: the exactly-one-of contract holds whenever maxRetries is at
least 1 — so for every client without a retry policy (maxRetries 1) and for
every policy with positive MaxRetries — but not in general: the
counterexample shows Do returning nil, nil when MaxRetries is 0. -/
theorem do_exactly_one_of (c : Client) (env : Env) (h : 1 ≤ c.maxRetries) :
    ((c.Do env).resp.isSome = true ∧ (c.Do env).err = none) ∨
    ((c.Do env).resp = none ∧ (c.Do env).err.isSome = true) := by
  unfold Client.Do
  dsimp only
  by_cases hl : (cacheLookup c env).2 = true
  · rw [if_pos hl]
    left
    exact ⟨cacheLookup_hit_isSome c env hl, rfl⟩
  · rw [if_neg hl]
    have hf : 1 ≤ (c.maxRetries).toNat := by omega
    cases hres : (doLoop c env (c.maxRetries).toNat 0 (cacheLookup c env).1 0 0).res with
    | early e =>
      right
      exact ⟨rfl, rfl⟩
    | done r =>
      have hr : r.isSome = true :=
        doLoop_done_isSome c env (c.maxRetries).toNat 0 (cacheLookup c env).1 0 0 r
          (Or.inr hf) hres
      dsimp only
      by_cases hc : c.hasCache = true
      · rw [hc, if_pos rfl]
        cases hset : env.cacheSet r with
        | some e =>
          right
          exact ⟨rfl, rfl⟩
        | none =>
          left
          exact ⟨hr, rfl⟩
      · rw [if_neg hc]
        left
        exact ⟨hr, rfl⟩

/-- Witness for do_exactly_one_of at a budget of 1 against the benign
environment. -/
theorem do_exactly_one_of_witness :
    ((Client.Do (convClient 1) okEnv).resp.isSome = true ∧
      (Client.Do (convClient 1) okEnv).err = none) ∨
    ((Client.Do (convClient 1) okEnv).resp = none ∧
      (Client.Do (convClient 1) okEnv).err.isSome = true) :=
  do_exactly_one_of (convClient 1) okEnv (by decide)

end Httpx
